import Mathlib

/-!
# Verification of the clash-royale-bot perception/decision core

A shallow embedding, in Lean 4, of the components of the
`clash-royale-agent` repository that the verified properties below are
about:

* `actions/action_space.py` — `ActionSpace`: the discrete 25-action
  encoding, decoding, validity and masking (Python `ValueError` is
  modelled as `Except.error`);
* `environment/state_manager.py` — `StateManager`: feature extraction
  from detections and observation encoding (Python floats are modelled
  as `ℚ`);
* `environment/reward_calculator.py` — `RewardCalculator`: terminal and
  shaping rewards;
* `environment/battle_detector.py` — `BattleDetector.detect_battle_end`
  over the outcomes of its OCR/template-matching collaborators;
* `environment/core.py` — `Environment.calculate_reward` and
  `Environment._find_hand`;
* `environment/gym_wrapper.py` — `GymEnvironment.reset` over the
  outcomes of its collaborators;
* `config/deck_config.py` — the static 8-card deck.

Stateful or screen-reading code is embedded by passing the outcomes of
the external collaborators (OCR text, template-match results, detection
lists, pixel-scan elixir counts) explicitly as arguments.
-/

deriving instance DecidableEq for Except

namespace ClashRoyale

/-! ## ActionSpace (actions/action_space.py)

`self.num_positions = 6`, `self.max_hand_size = 4`,
`self.num_actions = self.max_hand_size * self.num_positions + 1`,
`self.wait_action = 24`.  Python ints are modelled as `ℤ`; `raise
ValueError(...)` as `Except.error`. -/

def num_positions : ℤ := 6

def max_hand_size : ℤ := 4

def num_actions : ℤ := max_hand_size * num_positions + 1

def wait_action : ℤ := 24

/-- `ActionSpace.decode_action`: raises for `action_id < 0 or action_id >=
self.num_actions`; returns `(None, None)` for the wait action, else
`(action_id // 6, action_id % 6)`. -/
def decode_action (action_id : ℤ) : Except String (Option ℤ × Option ℤ) :=
  if action_id < 0 ∨ num_actions ≤ action_id then
    .error "Invalid action_id"
  else if action_id = wait_action then
    .ok (none, none)
  else
    .ok (some (action_id / num_positions), some (action_id % num_positions))

/-- `ActionSpace.encode_action`: `(None, None)` encodes to the wait action;
out-of-range `card_idx` or `position_idx` raises; else
`card_idx * 6 + position_idx`. -/
def encode_action (card_idx position_idx : Option ℤ) : Except String ℤ :=
  match card_idx, position_idx with
  | none, _ => .ok wait_action
  | _, none => .ok wait_action
  | some c, some p =>
    if c < 0 ∨ max_hand_size ≤ c then .error "Invalid card_idx"
    else if p < 0 ∨ num_positions ≤ p then .error "Invalid position_idx"
    else .ok (c * num_positions + p)

/-- A hand slot as `Environment._find_hand` builds it: card name, absolute
click anchor, elixir cost. -/
structure HandSlot where
  card : String
  click : ℚ × ℚ
  elixir_cost : ℤ
deriving DecidableEq, Repr

/-- The loop body of `ActionSpace.get_valid_actions`: `for card_idx,
card_info in enumerate(hand): if card_cost <= elixir: for position_idx in
range(6): valid_actions.append(self.encode_action(card_idx, position_idx))`.
A `ValueError` raised by `encode_action` aborts the whole call. -/
def validActionsAux (elixir : ℤ) : ℤ → List HandSlot → Except String (List ℤ)
  | _, [] => .ok []
  | card_idx, slot :: rest =>
    if slot.elixir_cost ≤ elixir then
      match (List.range num_positions.toNat).mapM
          (fun p => encode_action (some card_idx) (some (p : ℤ))) with
      | .error e => .error e
      | .ok ids =>
        match validActionsAux elixir (card_idx + 1) rest with
        | .error e => .error e
        | .ok restIds => .ok (ids ++ restIds)
    else validActionsAux elixir (card_idx + 1) rest

/-- `ActionSpace.get_valid_actions`: starts from `[self.wait_action]`
("can always wait"), returns it unchanged for an empty hand, then appends
the six position ids of every affordable slot in hand order. -/
def get_valid_actions (hand : List HandSlot) (elixir : ℤ) :
    Except String (List ℤ) :=
  if hand.length = 0 then .ok [wait_action]
  else
    match validActionsAux elixir 0 hand with
    | .error e => .error e
    | .ok ids => .ok (wait_action :: ids)

/-- `ActionSpace.get_action_mask`: `[i in valid_actions for i in
range(self.num_actions)]`; an exception from `get_valid_actions`
propagates. -/
def get_action_mask (hand : List HandSlot) (elixir : ℤ) :
    Except String (List Bool) :=
  match get_valid_actions hand elixir with
  | .error e => .error e
  | .ok valid => .ok ((List.range num_actions.toNat).map
      (fun i => decide ((i : ℤ) ∈ valid)))

/-! ## StateManager (environment/state_manager.py)

Python floats are modelled as `ℚ`; detection dictionaries as a structure
carrying the fields `extract_features` reads. -/

def CLASS_ALLY_KING_TOWER : ℕ := 0

def CLASS_ALLY_PRINCESS_TOWER : ℕ := 1

def CLASS_ALLY_TROOP : ℕ := 2

def CLASS_ENEMY_KING_TOWER : ℕ := 3

def CLASS_ENEMY_PRINCESS_TOWER : ℕ := 4

def CLASS_ENNEMY_TROOP : ℕ := 5

/-- One entry of `env.troops` as `Environment._get_troops` builds it. -/
structure Detection where
  x_center : ℚ
  y_center : ℚ
  width : ℚ
  height : ℚ
  class_id : ℕ
deriving DecidableEq, Repr

/-- The feature dictionary `StateManager.extract_features` returns. -/
structure Features where
  elixir : ℚ
  ally_troops_count : ℕ
  enemy_troops_count : ℕ
  ally_towers_alive : ℕ
  enemy_towers_alive : ℕ
deriving DecidableEq, Repr

/-- The body of the `for troop in env.troops` loop of
`StateManager.extract_features`: count towers by class, skip tower
classes `[0, 1, 3, 4]` for troop counting, then count ally/enemy
troops. -/
def countDetection (f : Features) (t : Detection) : Features :=
  let f :=
    if t.class_id = CLASS_ALLY_KING_TOWER ∨ t.class_id = CLASS_ALLY_PRINCESS_TOWER then
      { f with ally_towers_alive := f.ally_towers_alive + 1 }
    else if t.class_id = CLASS_ENEMY_KING_TOWER ∨ t.class_id = CLASS_ENEMY_PRINCESS_TOWER then
      { f with enemy_towers_alive := f.enemy_towers_alive + 1 }
    else f
  if t.class_id ∈ [0, 1, 3, 4] then f
  else if t.class_id = CLASS_ALLY_TROOP then
    { f with ally_troops_count := f.ally_troops_count + 1 }
  else if t.class_id = CLASS_ENNEMY_TROOP then
    { f with enemy_troops_count := f.enemy_troops_count + 1 }
  else f

/-- `StateManager.extract_features`: starts from
`{'elixir': env.elixir / 10, 0, 0, 0, 0}`, returns it unchanged when
`env.troops` is empty, else folds `countDetection` over the detections.
`env.elixir` is the integer the pixel scan of `get_elixir` produced. -/
def extract_features (env_elixir : ℕ) (troops : List Detection) : Features :=
  let features : Features :=
    { elixir := (env_elixir : ℚ) / 10
      ally_troops_count := 0
      enemy_troops_count := 0
      ally_towers_alive := 0
      enemy_towers_alive := 0 }
  if troops.length = 0 then features
  else troops.foldl countDetection features

/-- `StateManager.encode_observation`: the flat 5-float vector
`[elixir, min(ally,20)/20, min(enemy,20)/20, ally_towers/3,
enemy_towers/3]`. -/
def encode_observation (features : Features) : List ℚ :=
  [features.elixir,
   (min features.ally_troops_count 20 : ℚ) / 20,
   (min features.enemy_troops_count 20 : ℚ) / 20,
   (features.ally_towers_alive : ℚ) / 3,
   (features.enemy_towers_alive : ℚ) / 3]

/-! ## RewardCalculator (environment/reward_calculator.py) -/

/-- The weight dictionary of `RewardCalculator.__init__`. -/
structure Weights where
  tower_destroyed : ℚ
  tower_lost : ℚ
  elixir_advantage : ℚ
  win : ℚ
  loss : ℚ
  draw : ℚ
  time_penalty : ℚ
deriving DecidableEq, Repr

/-- The default weights of `RewardCalculator.__init__`. -/
def defaultWeights : Weights :=
  { tower_destroyed := 100
    tower_lost := -100
    elixir_advantage := 1
    win := 1000
    loss := -1000
    draw := 0
    time_penalty := -1/100 }

/-- `RewardCalculator._tower_reward`. -/
def tower_reward (w : Weights)
    (ally_towers enemy_towers prev_ally_towers prev_enemy_towers : ℕ) : ℚ :=
  let reward : ℚ := 0
  let reward := if enemy_towers < prev_enemy_towers then
      reward + w.tower_destroyed * ((prev_enemy_towers - enemy_towers : ℕ) : ℚ)
    else reward
  if ally_towers < prev_ally_towers then
    reward + w.tower_lost * ((prev_ally_towers - ally_towers : ℕ) : ℚ)
  else reward

/-- `RewardCalculator._elixir_advantage_reward`: note the guard compares
its `elixir` argument against the literal `10`. -/
def elixir_advantage_reward (w : Weights) (elixir : ℚ) (_action : ℤ) : ℚ :=
  if elixir < 10 then w.elixir_advantage * (1/10)
  else w.elixir_advantage * (-(1/2))

/-- `RewardCalculator.calculate`: terminal results short-circuit to the
fixed weights; otherwise tower delta + elixir-management term + time
penalty. -/
def calculate (w : Weights) (prev_state curr_state : Features)
    (action : ℤ) (battle_result : Option String) : ℚ :=
  if battle_result = some "victory" then w.win
  else if battle_result = some "defeat" then w.loss
  else if battle_result = some "draw" then w.draw
  else
    tower_reward w curr_state.ally_towers_alive curr_state.enemy_towers_alive
        prev_state.ally_towers_alive prev_state.enemy_towers_alive
      + elixir_advantage_reward w curr_state.elixir action
      + w.time_penalty

/-! ## Environment.calculate_reward (environment/core.py) -/

/-- `Environment.calculate_reward`: extracts the current features, and
when `self.prev_state is None` stores them and returns `0.0` without
calling `RewardCalculator`; else calls `RewardCalculator.calculate` and
stores the snapshot.  Returns `(reward, new prev_state)`. -/
def env_calculate_reward (w : Weights) (prev_state : Option Features)
    (env_elixir : ℕ) (troops : List Detection)
    (action : ℤ) (battle_result : Option String) : ℚ × Option Features :=
  let curr_features := extract_features env_elixir troops
  match prev_state with
  | none => (0, some curr_features)
  | some prev => (calculate w prev curr_features action battle_result, some curr_features)

/-! ## BattleDetector.detect_battle_end (environment/battle_detector.py)

The collaborators are embedded by their outcomes: the stripped OCR text
of the two fixed banner crops, and whether the ok-button template was
found. -/

/-- What one tick of screen reading yields to `detect_battle_end`:
`victory_banner_text` and `defeat_banner_text` are the stripped
`read_text` results over the two banner crop regions, `ok_button_found`
the result of `find(ok_button_template, game_screen)`. -/
structure ScreenReading where
  victory_banner_text : String
  defeat_banner_text : String
  ok_button_found : Bool
deriving DecidableEq, Repr

/-- `BattleDetector.detect_battle_result`: ally banner checked first for
the text `"Winner!"` (→ victory), then the enemy banner (→ defeat), else
no specific result. -/
def detect_battle_result (s : ScreenReading) : Option String :=
  if s.victory_banner_text = "Winner!" then some "victory"
  else if s.defeat_banner_text = "Winner!" then some "defeat"
  else none

/-- `BattleDetector.detect_battle_end`: the OCR result if any, else
`'draw'` when the ok-button template is found, else `None` (battle
ongoing). -/
def detect_battle_end (s : ScreenReading) : Option String :=
  match detect_battle_result s with
  | some result => some result
  | none => if s.ok_button_found then some "draw" else none

/-! ## Deck and Environment._find_hand (config/deck_config.py,
environment/core.py) -/

/-- One card of `DECK`. -/
structure Card where
  name : String
  url : String
  elixir_cost : ℤ
  type : String
deriving DecidableEq, Repr

/-- The static 8-card `DECK` of config/deck_config.py. -/
def DECK : List Card :=
  [⟨"dark_prince", "./ref_images/deck/dark_prince.png", 4, "troop"⟩,
   ⟨"prince", "./ref_images/deck/prince.png", 5, "troop"⟩,
   ⟨"ice_wiz", "./ref_images/deck/ice_wiz.png", 3, "troop"⟩,
   ⟨"knight", "./ref_images/deck/knight.png", 3, "troop"⟩,
   ⟨"log", "./ref_images/deck/log.png", 2, "spell"⟩,
   ⟨"mini_pekka", "./ref_images/deck/mini_pekka.png", 4, "troop"⟩,
   ⟨"valk", "./ref_images/deck/valk.png", 4, "troop"⟩,
   ⟨"musketeer", "./ref_images/deck/musketeer.png", 4, "troop"⟩]

/-- `Environment._find_hand`: for every card of the deck, template-match
its image on the game screen (`find` gives the match rectangle when
found) and append a slot whose click anchor is the rectangle's centre
offset by the game area's top-left corner.  No cap on the number of
slots. -/
def find_hand (deck : List Card)
    (find : String → Option ((ℚ × ℚ) × (ℚ × ℚ)))
    (game_top_left : ℚ × ℚ) : List HandSlot :=
  deck.filterMap (fun card =>
    (find card.url).map (fun r =>
      let pt1 := r.1
      let pt2 := r.2
      let center_x := (pt1.1 + pt2.1) / 2
      let center_y := (pt1.2 + pt2.2) / 2
      { card := card.name
        click := (center_x + game_top_left.1, center_y + game_top_left.2)
        elixir_cost := card.elixir_cost }))

/-! ## GymEnvironment.reset (environment/gym_wrapper.py)

The collaborators are embedded by their outcomes: the boolean results of
the two `start_new_battle` attempts, and the environment state after the
one `update_environment` call. -/

/-- What `GymEnvironment.reset` observes from its collaborators: the
result of the first `env.start_new_battle()` call, the result of the
retry (made only when the first fails), and the environment state after
`update_environment`. -/
structure ResetWorld where
  start_attempt1 : Bool
  start_attempt2 : Bool
  env_elixir : ℕ
  troops : List Detection
  hand : List HandSlot
deriving DecidableEq, Repr

/-- The info dictionary `GymEnvironment.reset` returns. -/
structure ResetInfo where
  elixir : ℕ
  hand_size : ℕ
  troops_detected : ℕ
deriving DecidableEq, Repr

/-- `GymEnvironment.reset`: tries `start_new_battle` once, retries once
on failure, and then proceeds unconditionally — the `success` flag is
never consulted again; it waits, updates the environment once, and
returns `(observation, info)` where the observation is
`env.get_observation()` (= `encode_observation` of `extract_features`)
and the info carries elixir, hand size and detection count. -/
def gym_reset (w : ResetWorld) : Except String (List ℚ × ResetInfo) :=
  let _success := if w.start_attempt1 then true else w.start_attempt2
  .ok (encode_observation (extract_features w.env_elixir w.troops),
       { elixir := w.env_elixir
         hand_size := w.hand.length
         troops_detected := w.troops.length })

/-! ## Helper lemmas -/

lemma encode_ok (c p : ℤ) (hc0 : 0 ≤ c) (hc : c < 4) (hp0 : 0 ≤ p) (hp : p < 6) :
    encode_action (some c) (some p) = .ok (c * 6 + p) := by
  have h1 : ¬(c < 0 ∨ (4 : ℤ) ≤ c) := by omega
  have h2 : ¬(p < 0 ∨ (6 : ℤ) ≤ p) := by omega
  simp only [encode_action, max_hand_size, num_positions, if_neg h1, if_neg h2]

lemma slot_ids (c : ℤ) (hc0 : 0 ≤ c) (hc : c < 4) :
    (List.range num_positions.toNat).mapM
        (fun p => encode_action (some c) (some (p : ℤ))) =
      .ok [c * 6, c * 6 + 1, c * 6 + 2, c * 6 + 3, c * 6 + 4, c * 6 + 5] := by
  interval_cases c <;> decide

lemma validActionsAux_ok (elixir : ℤ) (hand : List HandSlot) :
    ∀ k : ℤ, 0 ≤ k → k + hand.length ≤ 4 →
      ∃ l, validActionsAux elixir k hand = .ok l ∧ ∀ a ∈ l, 0 ≤ a ∧ a < 24 := by
  induction hand with
  | nil => exact fun k _ _ => ⟨[], rfl, by simp⟩
  | cons slot rest ih =>
    intro k hk0 hk
    have hlen : (slot :: rest).length = rest.length + 1 := rfl
    have hk4 : k < 4 := by rw [hlen] at hk; omega
    obtain ⟨l, hl, hlb⟩ := ih (k + 1) (by omega) (by rw [hlen] at hk; omega)
    by_cases hc : slot.elixir_cost ≤ elixir
    · refine ⟨[k * 6, k * 6 + 1, k * 6 + 2, k * 6 + 3, k * 6 + 4, k * 6 + 5] ++ l,
        ?_, ?_⟩
      · simp only [validActionsAux, if_pos hc, slot_ids k hk0 hk4, hl]
      · intro a ha
        rcases List.mem_append.mp ha with h | h
        · simp only [List.mem_cons, List.not_mem_nil, or_false] at h
          rcases h with h | h | h | h | h | h <;> omega
        · exact hlb a h
    · exact ⟨l, by simp only [validActionsAux, if_neg hc]; exact hl, hlb⟩

lemma get_valid_actions_ok (hand : List HandSlot) (elixir : ℤ)
    (h : hand.length ≤ 4) :
    ∃ l, get_valid_actions hand elixir = .ok (24 :: l) ∧
      ∀ a ∈ l, 0 ≤ a ∧ a < 24 := by
  unfold get_valid_actions
  by_cases h0 : hand.length = 0
  · rw [if_pos h0]; exact ⟨[], rfl, by simp⟩
  · rw [if_neg h0]
    obtain ⟨l, hl, hlb⟩ := validActionsAux_ok elixir hand 0 le_rfl (by omega)
    rw [hl]
    exact ⟨l, rfl, hlb⟩

lemma validActionsAux_idx4_error (s4 : HandSlot) (rest : List HandSlot)
    (elixir : ℤ) (hc : s4.elixir_cost ≤ elixir) :
    validActionsAux elixir 4 (s4 :: rest) = .error "Invalid card_idx" := by
  have hm : (List.range num_positions.toNat).mapM
      (fun p => encode_action (some (4 : ℤ)) (some (p : ℤ))) =
        .error "Invalid card_idx" := by decide
  simp only [validActionsAux, if_pos hc, hm]

lemma validActionsAux_error_step (s : HandSlot) (t : List HandSlot)
    (elixir k : ℤ) (hk0 : 0 ≤ k) (hk : k < 4) (e : String)
    (h : validActionsAux elixir (k + 1) t = .error e) :
    validActionsAux elixir k (s :: t) = .error e := by
  by_cases hc : s.elixir_cost ≤ elixir
  · simp only [validActionsAux, if_pos hc, slot_ids k hk0 hk, h]
  · simp only [validActionsAux, if_neg hc]; exact h

lemma get_action_mask_ok (hand : List HandSlot) (elixir : ℤ)
    (h : hand.length ≤ 4) :
    ∃ m, get_action_mask hand elixir = .ok m ∧ m.length = 25 ∧
      m[24]? = some true := by
  obtain ⟨l, hl, _⟩ := get_valid_actions_ok hand elixir h
  unfold get_action_mask
  rw [hl]
  refine ⟨_, rfl, ?_, ?_⟩
  · show ((List.range num_actions.toNat).map
        (fun i => decide ((i : ℤ) ∈ 24 :: l))).length = 25
    rfl
  · show ((List.range num_actions.toNat).map
        (fun i => decide ((i : ℤ) ∈ 24 :: l)))[24]? = some true
    have hr : ((List.range num_actions.toNat).map
        (fun i => decide ((i : ℤ) ∈ 24 :: l)))[24]? =
          some (decide ((24 : ℤ) ∈ 24 :: l)) := rfl
    rw [hr]
    simp

/-! ## The claims -/

/-- C4: `ActionSpace.get_valid_actions` is total only under the precondition
that the hand has at most 4 slots: for every hand of length at most 4 it
returns without raising and every returned id is in `[0, 24]`; but for a
hand with more than 4 slots whose slot at index 4 has `elixir_cost` at most
the current elixir it raises `ValueError` — and `Environment._find_hand`
can build such a hand because it template-matches all 8 deck cards without
capping at 4 (with elixir 10 every deck card is affordable and the
resulting 8-slot hand makes `get_valid_actions` raise). -/
theorem get_valid_actions_hand_size_safety :
    (∀ (hand : List HandSlot) (elixir : ℤ), hand.length ≤ 4 →
      ∃ l, get_valid_actions hand elixir = .ok l ∧ ∀ a ∈ l, 0 ≤ a ∧ a ≤ 24) ∧
    (∀ (s0 s1 s2 s3 s4 : HandSlot) (rest : List HandSlot) (elixir : ℤ),
      s4.elixir_cost ≤ elixir →
      get_valid_actions (s0 :: s1 :: s2 :: s3 :: s4 :: rest) elixir =
        .error "Invalid card_idx") ∧
    (find_hand DECK (fun _ => some ((0, 0), (0, 0))) (0, 0)).length = 8 ∧
    (get_valid_actions
      (find_hand DECK (fun _ => some ((0, 0), (0, 0))) (0, 0)) 10).isOk = false := by
  refine ⟨?_, ?_, by decide, by decide⟩
  · intro hand elixir h
    obtain ⟨l, hl, hlb⟩ := get_valid_actions_ok hand elixir h
    refine ⟨24 :: l, hl, ?_⟩
    intro a ha
    rcases List.mem_cons.mp ha with h | h
    · omega
    · have := hlb a h; omega
  · intro s0 s1 s2 s3 s4 rest elixir hc
    have h4 := validActionsAux_idx4_error s4 rest elixir hc
    have h3 := validActionsAux_error_step s3 _ elixir 3 (by norm_num) (by norm_num) _ h4
    have h2 := validActionsAux_error_step s2 _ elixir 2 (by norm_num) (by norm_num) _ h3
    have h1 := validActionsAux_error_step s1 _ elixir 1 (by norm_num) (by norm_num) _ h2
    have h0 := validActionsAux_error_step s0 _ elixir 0 (by norm_num) (by norm_num) _ h1
    unfold get_valid_actions
    rw [if_neg (by simp), h0]

/-- C6: for every hand of at most 4 slots and every elixir value,
`get_action_mask` returns a mask of length 25 whose index 24 is true; and
for the hand `[{cost 3}, {cost 5}]` with elixir 4 exactly 7 entries are
true — ids 0..5 (slot 0's six positions) and 24 — while slot 1's ids 6..11
are all false. -/
theorem action_mask_spec :
    (∀ (hand : List HandSlot) (elixir : ℤ), hand.length ≤ 4 →
      ∃ m, get_action_mask hand elixir = .ok m ∧ m.length = 25 ∧
        m[24]? = some true) ∧
    (∃ m, get_action_mask [⟨"a", (0, 0), 3⟩, ⟨"b", (0, 0), 5⟩] 4 = .ok m ∧
      m.length = 25 ∧ m.count true = 7 ∧
      (∀ i ≤ 5, m[i]? = some true) ∧
      (∀ i, 6 ≤ i → i ≤ 11 → m[i]? = some false) ∧
      m[24]? = some true) := by
  refine ⟨fun hand elixir h => get_action_mask_ok hand elixir h,
    ⟨List.replicate 6 true ++ List.replicate 18 false ++ [true], by decide⟩⟩

/-- C7: encoding then decoding round-trips on every valid pair
(`card_idx ∈ [0,3]`, `position_idx ∈ [0,5]`); `encode_action(None, None)`
is the wait action 24 and `decode_action 24` is `(None, None)`. -/
theorem encode_decode_roundtrip :
    (∀ c p : ℤ, 0 ≤ c → c ≤ 3 → 0 ≤ p → p ≤ 5 →
      (encode_action (some c) (some p)).bind decode_action =
        .ok (some c, some p)) ∧
    encode_action none none = .ok 24 ∧
    decode_action 24 = .ok (none, none) := by
  refine ⟨?_, by decide, by decide⟩
  intro c p hc0 hc hp0 hp
  interval_cases c <;> interval_cases p <;> decide

/-- C9: `decode_action` raises for every id outside `[0, 24]` and never
raises for any id inside `[0, 24]`. -/
theorem decode_action_error_handling :
    (∀ id : ℤ, (id < 0 ∨ 24 < id) →
      decode_action id = .error "Invalid action_id") ∧
    (∀ id : ℤ, 0 ≤ id → id ≤ 24 → ∃ r, decode_action id = .ok r) := by
  constructor
  · intro id h
    unfold decode_action
    rw [if_pos (by unfold num_actions max_hand_size num_positions; omega)]
  · intro id h0 h24
    unfold decode_action
    rw [if_neg (by unfold num_actions max_hand_size num_positions; omega)]
    by_cases h : id = wait_action
    · rw [if_pos h]; exact ⟨(none, none), rfl⟩
    · rw [if_neg h]; exact ⟨_, rfl⟩

/-- C5: `BattleDetector.detect_battle_end` returns `'victory'` when the
ally banner reads the winner string (checked first), else `'defeat'` when
the enemy banner reads it, else `'draw'` when the ok-dialog template is
found, and otherwise no result (battle ongoing); in particular when both
banners match the result is `'victory'`. -/
theorem detect_battle_end_priority :
    (∀ s : ScreenReading, s.victory_banner_text = "Winner!" →
      detect_battle_end s = some "victory") ∧
    (∀ s : ScreenReading, s.victory_banner_text ≠ "Winner!" →
      s.defeat_banner_text = "Winner!" → detect_battle_end s = some "defeat") ∧
    (∀ s : ScreenReading, s.victory_banner_text ≠ "Winner!" →
      s.defeat_banner_text ≠ "Winner!" → s.ok_button_found = true →
      detect_battle_end s = some "draw") ∧
    (∀ s : ScreenReading, s.victory_banner_text ≠ "Winner!" →
      s.defeat_banner_text ≠ "Winner!" → s.ok_button_found = false →
      detect_battle_end s = none) ∧
    detect_battle_end ⟨"Winner!", "Winner!", false⟩ = some "victory" := by
  refine ⟨?_, ?_, ?_, ?_, by decide⟩
  · intro s h
    simp [detect_battle_end, detect_battle_result, h]
  · intro s h1 h2
    simp [detect_battle_end, detect_battle_result, h1, h2]
  · intro s h1 h2 h3
    simp [detect_battle_end, detect_battle_result, h1, h2, h3]
  · intro s h1 h2 h3
    simp [detect_battle_end, detect_battle_result, h1, h2, h3]

/-- C8: for every pair of feature records, every action and every weight
configuration, `RewardCalculator.calculate` with a terminal battle result
returns exactly the configured win/loss/draw weight, with no tower,
elixir or time-penalty shaping added. -/
theorem terminal_rewards_exact (w : Weights) (prev curr : Features)
    (action : ℤ) :
    calculate w prev curr action (some "victory") = w.win ∧
    calculate w prev curr action (some "defeat") = w.loss ∧
    calculate w prev curr action (some "draw") = w.draw := by
  refine ⟨?_, ?_, ?_⟩ <;> simp [calculate]

/-- C10: on the first tick after reset (`prev_state` is `None`),
`Environment.calculate_reward` returns exactly 0 and stores the current
feature snapshot without invoking `RewardCalculator`, for every action and
every battle result — including terminal ones, for which
`RewardCalculator.calculate` itself would have returned the win weight. -/
theorem first_tick_zero_reward :
    (∀ (w : Weights) (env_elixir : ℕ) (troops : List Detection) (action : ℤ)
        (battle_result : Option String),
      env_calculate_reward w none env_elixir troops action battle_result =
        (0, some (extract_features env_elixir troops))) ∧
    env_calculate_reward defaultWeights none 5 [] 0 (some "victory") =
      (0, some (extract_features 5 [])) ∧
    calculate defaultWeights (extract_features 5 []) (extract_features 5 [])
      0 (some "victory") = 1000 := by
  exact ⟨fun w e t a b => rfl, rfl, by simp [calculate, defaultWeights]⟩

/-- C1 counterexample: the feature record with elixir 0, zero troop counts
and 4 ally towers alive has its elixir in `[0, 1]` and non-negative
counts, yet `encode_observation` maps it to a vector whose entry 3 is
`4/3 > 1` — the tower ratios are not clamped. -/
theorem encode_observation_tower_ratio_unclamped :
    (0 : ℚ) ≤ (Features.mk 0 0 0 4 0).elixir ∧
    (Features.mk 0 0 0 4 0).elixir ≤ 1 ∧
    (encode_observation (Features.mk 0 0 0 4 0)).length = 5 ∧
    (encode_observation (Features.mk 0 0 0 4 0))[3]? = some (4/3) ∧
    (1 : ℚ) < 4/3 := by
  norm_num [encode_observation]

/-- C1 (amended): for every features record with elixir in `[0, 1]`,
arbitrary non-negative troop counts and tower counts at most 3,
`encode_observation` returns a vector of exactly 5 values each in
`[0, 1]`, even when troop counts exceed 20 (the troop ratios are clamped
to 1). -/
theorem encode_observation_bounded (f : Features)
    (h0 : 0 ≤ f.elixir) (h1 : f.elixir ≤ 1)
    (ha : f.ally_towers_alive ≤ 3) (he : f.enemy_towers_alive ≤ 3) :
    (encode_observation f).length = 5 ∧
    ∀ x ∈ encode_observation f, 0 ≤ x ∧ x ≤ 1 := by
  refine ⟨rfl, ?_⟩
  intro x hx
  simp only [encode_observation, List.mem_cons, List.not_mem_nil, or_false] at hx
  rcases hx with h | h | h | h | h <;> subst h
  · exact ⟨h0, h1⟩
  · constructor
    · positivity
    · rw [div_le_one (by norm_num)]
      exact min_le_of_right_le (by norm_num)
  · constructor
    · positivity
    · rw [div_le_one (by norm_num)]
      exact min_le_of_right_le (by norm_num)
  · constructor
    · positivity
    · rw [div_le_one (by norm_num)]
      exact_mod_cast ha
  · constructor
    · positivity
    · rw [div_le_one (by norm_num)]
      exact_mod_cast he

/-- C1 witness: the bound at a concrete record with elixir 1/2, an ally
troop count of 25 (beyond the clamp), and full tower counts. -/
theorem encode_observation_bounded_witness :
    (encode_observation ⟨1/2, 25, 0, 3, 2⟩).length = 5 ∧
    ∀ x ∈ encode_observation ⟨1/2, 25, 0, 3, 2⟩, 0 ≤ x ∧ x ≤ 1 :=
  encode_observation_bounded ⟨1/2, 25, 0, 3, 2⟩ (by norm_num) (by norm_num)
    (by norm_num) (by norm_num)

/-- C2: at the elixir cap — `env.elixir = 10`, so the feature produced by
`StateManager.extract_features` is `10 / 10 = 1.0` — the elixir-management
term of `RewardCalculator` is `+0.1` (the guard `elixir < 10` compares the
normalized feature against 10 and is always true there), and the full
non-terminal reward at unchanged tower counts is `+0.09 > 0`, not the
strictly negative value the specification requires for capped elixir. -/
theorem elixir_term_positive_at_cap :
    (extract_features 10 []).elixir = 1 ∧
    elixir_advantage_reward defaultWeights (extract_features 10 []).elixir 24 =
      1/10 ∧
    (0 : ℚ) < 1/10 ∧
    calculate defaultWeights (extract_features 10 []) (extract_features 10 [])
      24 none = 9/100 ∧
    (0 : ℚ) < 9/100 := by
  refine ⟨?_, ?_, by norm_num, ?_, by norm_num⟩
  · norm_num [extract_features]
  · norm_num [elixir_advantage_reward, defaultWeights, extract_features]
  · simp only [calculate, Option.some.injEq, reduceCtorEq, if_false]
    norm_num [tower_reward, elixir_advantage_reward, defaultWeights,
      extract_features]

/-- C3 counterexample: when both `start_new_battle` attempts fail
(`start_attempt1 = start_attempt2 = false`), `GymEnvironment.reset` still
returns a normal `(observation, info)` result — nothing is raised or
propagated. -/
theorem reset_ok_after_two_failures :
    gym_reset ⟨false, false, 0, [], []⟩ =
      .ok ([0, 0, 0, 0, 0], ⟨0, 0, 0⟩) ∧
    (gym_reset ⟨false, false, 0, [], []⟩).isOk = true := by
  constructor
  · norm_num [gym_reset, encode_observation, extract_features]
  · rfl

/-- C3 (amended): `GymEnvironment.reset` never surfaces a battle-start
failure: for every outcome of the two `start_new_battle` attempts it
returns a normal `(observation, info)` result, and the returned value does
not depend on those outcomes at all. -/
theorem reset_returns_normally_always :
    (∀ w : ResetWorld, (gym_reset w).isOk = true) ∧
    (∀ (w : ResetWorld) (b1 b2 : Bool),
      gym_reset { w with start_attempt1 := b1, start_attempt2 := b2 } =
        gym_reset w) := by
  exact ⟨fun w => rfl, fun w b1 b2 => rfl⟩

end ClashRoyale

